import Mathlib

/-!
Shallow embedding of the dynamic spreadsheet engine of the `gestorstock`
repository and verification of its specification.

The embedding follows these source locations:

* `src/components/inventory/EditableSpreadsheet` (bundled in
  `MovementHistory.tsx`): the workbook data model (`DynamicSheet`,
  `Column`, `Row`, `CellValue`) and the structural mutation operations
  `addSheet`, `deleteSheet`, `addColumn`, `deleteColumn`, `addRow`,
  `deleteRow`, `updateCell`, plus the cell-input coercion
  `col.type === 'number' ? Number(v) || null : v`.
* `src/lib/excel` (bundled in `PDFExport.tsx`): `parseExcelFile`'s column
  type inference (first-10-rows sampling) and row construction.
* `src/lib/utils` (`part_008`): `getStockStatus`.
* the dashboard page (`part_000`): `handleCalculate`'s bucket filters.
* `KPICards` (`part_006`): the critical/healthy/excess classification.

JavaScript numbers are modelled as `ℚ`, with NaN kept as an explicit
marker (`Option ℚ` for conversion results, `CellValue.nan` for stored
cells); JS objects used as cell maps are modelled as association lists.
-/

namespace GestorStock

/-- A stored cell value: JS `string | number | null`, with NaN kept
distinct from ordinary numbers (`type CellValue = string | number | null`
in `EditableSpreadsheet`). -/
inductive CellValue where
  | str (s : String)
  | num (q : ℚ)
  | nan
  | null
deriving DecidableEq, Repr

/-- Column kind: `'text' | 'number'`. -/
inductive ColumnType where
  | text
  | number
deriving DecidableEq, Repr

/-- A raw value in an imported table cell (XLSX `sheet_to_json` output):
a string or a number. -/
inductive JSVal where
  | str (s : String)
  | num (q : ℚ)
deriving DecidableEq, Repr

/-- Numeric value of a digit run (most significant first). -/
def digitsVal (l : List Char) : Nat :=
  l.foldl (fun a c => a * 10 + (c.toNat - 48)) 0

/-- Core of the JS `Number(string)` conversion on a trimmed, non-empty
character list: optional sign, integer digits, optional fraction,
optional exponent; anything else is NaN (`none`). -/
def jsNumCore (l : List Char) : Option ℚ :=
  let signAndRest : ℚ × List Char :=
    match l with
    | '+' :: t => (1, t)
    | '-' :: t => (-1, t)
    | _ => (1, l)
  let sign := signAndRest.1
  let l1 := signAndRest.2
  let ip := l1.takeWhile Char.isDigit
  let l2 := l1.dropWhile Char.isDigit
  let fracAndRest : List Char × List Char :=
    match l2 with
    | '.' :: t => (t.takeWhile Char.isDigit, t.dropWhile Char.isDigit)
    | _ => ([], l2)
  let fp := fracAndRest.1
  let l3 := fracAndRest.2
  if ip.isEmpty && fp.isEmpty then none
  else
    let mant : ℚ := (digitsVal ip : ℚ) + (digitsVal fp : ℚ) / ((10 : ℚ) ^ fp.length)
    match l3 with
    | [] => some (sign * mant)
    | c :: t =>
      if c = 'e' ∨ c = 'E' then
        let esignAndRest : Int × List Char :=
          match t with
          | '+' :: t2 => (1, t2)
          | '-' :: t2 => (-1, t2)
          | _ => (1, t)
        let ed := esignAndRest.2.takeWhile Char.isDigit
        let rest := esignAndRest.2.dropWhile Char.isDigit
        if ed.isEmpty || !rest.isEmpty then none
        else some (sign * mant * (10 : ℚ) ^ (esignAndRest.1 * (digitsVal ed : Int)))
      else none

/-- Whitespace trimming on a character list (JS `Number` ignores leading
and trailing whitespace). -/
def jsTrim (l : List Char) : List Char :=
  (((l.dropWhile Char.isWhitespace).reverse).dropWhile Char.isWhitespace).reverse

/-- Model of the JS `Number(s)` conversion for a string `s`, as used by
the source on cell input (`Number(e.target.value)`), in type inference
(`isNaN(Number(val))`) and in import row construction (`Number(value)`).
`none` stands for NaN.  The empty (or all-whitespace) string converts to
`0`; decimal literals with sign, fraction and exponent convert to their
value; anything else is NaN. -/
def jsNum (s : String) : Option ℚ :=
  let t := jsTrim s.data
  if t.isEmpty then some 0 else jsNumCore t

/-- Stock status, `'bajo' | 'correcto' | 'alto'` (`src/types`). -/
inductive StockStatus where
  | bajo
  | correcto
  | alto
deriving DecidableEq, Repr

/-- `getStockStatus` from `src/lib/utils` (part_008 lines 31-39). -/
def getStockStatus (stockActual stockMinimo stockMaximo : ℚ) : StockStatus :=
  if stockActual < stockMinimo then StockStatus.bajo
  else if stockActual ≥ stockMaximo then StockStatus.alto
  else StockStatus.correcto

/-- Per-record predicate of the `productos_bajo_stock` filter in
`handleCalculate` (part_000 lines 121-124): `stock < stockMinimo`. -/
def bajoFilter (stockMinimo stock : ℚ) : Bool :=
  decide (stock < stockMinimo)

/-- Per-record predicate of the `productos_stock_correcto` filter in
`handleCalculate` (part_000 lines 125-128):
`stock >= stockMinimo && stock <= stockMaximo`. -/
def correctoFilter (stockMinimo stockMaximo stock : ℚ) : Bool :=
  decide (stock ≥ stockMinimo) && decide (stock ≤ stockMaximo)

/-- Per-record predicate of the `productos_alto_stock` filter in
`handleCalculate` (part_000 lines 129-132): `stock > stockMaximo`. -/
def altoFilter (stockMaximo stock : ℚ) : Bool :=
  decide (stock > stockMaximo)

/-- `productos_bajo_stock` count from `handleCalculate`. -/
def productosBajoStock (stocks : List ℚ) (stockMinimo : ℚ) : Nat :=
  (stocks.filter (bajoFilter stockMinimo)).length

/-- `productos_stock_correcto` count from `handleCalculate`. -/
def productosStockCorrecto (stocks : List ℚ) (stockMinimo stockMaximo : ℚ) : Nat :=
  (stocks.filter (correctoFilter stockMinimo stockMaximo)).length

/-- `productos_alto_stock` count from `handleCalculate`. -/
def productosAltoStock (stocks : List ℚ) (stockMaximo : ℚ) : Nat :=
  (stocks.filter (altoFilter stockMaximo)).length

/-- The per-record critical/healthy/excess classification of `KPICards`
(part_006 lines 57-63): `if (stock < minStock) critical else if
(stock > maxStock) excess else healthy`, rendered into `StockStatus`
(critical = bajo, excess = alto, healthy = correcto). -/
def kpiClassify (stock minStock maxStock : ℚ) : StockStatus :=
  if stock < minStock then StockStatus.bajo
  else if stock > maxStock then StockStatus.alto
  else StockStatus.correcto

/-- A column definition (`interface Column` in `EditableSpreadsheet`):
`{ id: string; name: string; type: 'text' | 'number' }`. -/
structure Column where
  id : String
  name : String
  type : ColumnType
deriving DecidableEq, Repr

/-- A row (`interface Row`): `{ id: string; cells: Record<string,
CellValue>; selected?: boolean }`.  The JS object `cells` is modelled as
an association list from column id to cell value. -/
structure Row where
  id : String
  cells : List (String × CellValue)
  selected : Bool := false
deriving DecidableEq, Repr

/-- A sheet (`interface DynamicSheet`): `{ id, name, columns, rows }`. -/
structure Sheet where
  id : String
  name : String
  columns : List Column
  rows : List Row
deriving DecidableEq, Repr

/-- Lookup of a key in a JS object used as a cell map (`row.cells[colId]`
returning `undefined` when the key is missing). -/
def getCell (cells : List (String × CellValue)) (k : String) : Option CellValue :=
  (cells.find? (fun p => p.1 = k)).map (fun p => p.2)

/-- JS object spread update `{ ...cells, [k]: v }`: the key `k` is bound
to `v` and every other key keeps its value. -/
def setCell (cells : List (String × CellValue)) (k : String) (v : CellValue) :
    List (String × CellValue) :=
  (k, v) :: cells.filter (fun p => ¬ p.1 = k)

/-- JS destructuring removal `const { [k]: _, ...rest } = cells`. -/
def removeCell (cells : List (String × CellValue)) (k : String) :
    List (String × CellValue) :=
  cells.filter (fun p => ¬ p.1 = k)

/-- `const activeSheet = sheets.find(s => s.id === activeSheetId) ||
sheets[0]` (`EditableSpreadsheet` line 275).  `none` only when the sheet
list is empty (where the JS code would fault on a member access; the
component keeps the list non-empty). -/
def findActiveSheet (sheets : List Sheet) (activeSheetId : String) : Option Sheet :=
  match sheets.find? (fun s => s.id = activeSheetId) with
  | some s => some s
  | none => sheets.head?

/-- JS `Array.prototype.findIndex`: index of the first match, `-1` when
no element matches. -/
def jsFindIndex (p : α → Bool) : List α → Int
  | [] => -1
  | a :: t =>
    if p a then 0
    else
      let r := jsFindIndex p t
      if r < 0 then -1 else r + 1

/-- JS `arr.splice(n, 0, a)` insertion at position `n` (clamped to the
array length). -/
def spliceInsert (l : List α) (n : Nat) (a : α) : List α :=
  l.take n ++ a :: l.drop n

/-- `deleteSheet` (`EditableSpreadsheet` lines 311-318): no-op when only
one sheet remains, otherwise filters the sheet out. -/
def deleteSheet (sheets : List Sheet) (sheetId : String) : List Sheet :=
  if sheets.length ≤ 1 then sheets
  else sheets.filter (fun s => ¬ s.id = sheetId)

/-- The column created by `addColumn`: fresh id (modelled as a
parameter), auto-numbered name, default kind text. -/
def newColumnFor (active : Sheet) (newId : String) : Column :=
  { id := newId
    name := "Columna " ++ toString (active.columns.length + 1)
    type := ColumnType.text }

/-- `addColumn` (`EditableSpreadsheet` lines 327-355).  The new column is
appended when `afterColumnId` is omitted (or empty: JS truthiness test
`afterColumnId ?`); otherwise it is spliced at `findIndex(...) + 1`.  An
absent-valued cell for the new column id is added to every row of the
active sheet in the same update. -/
def addColumn (sheets : List Sheet) (activeSheetId newId : String)
    (afterColumnId : Option String) : List Sheet :=
  match findActiveSheet sheets activeSheetId with
  | none => sheets
  | some active =>
    let newColumn := newColumnFor active newId
    let newColumns :=
      match afterColumnId with
      | none => active.columns ++ [newColumn]
      | some a =>
        if a = "" then active.columns ++ [newColumn]
        else
          let idx := jsFindIndex (fun c => decide (c.id = a)) active.columns
          spliceInsert active.columns (idx + 1).toNat newColumn
    let newRows := active.rows.map (fun r =>
      { r with cells := setCell r.cells newColumn.id CellValue.null })
    sheets.map (fun s =>
      if s.id = activeSheetId then { s with columns := newColumns, rows := newRows }
      else s)

/-- `deleteColumn` (`EditableSpreadsheet` lines 357-372): no-op when the
active sheet has at most one column; otherwise removes the column and
deletes its key from every row's cell map. -/
def deleteColumn (sheets : List Sheet) (activeSheetId columnId : String) : List Sheet :=
  match findActiveSheet sheets activeSheetId with
  | none => sheets
  | some active =>
    if active.columns.length ≤ 1 then sheets
    else
      let newColumns := active.columns.filter (fun c => ¬ c.id = columnId)
      let newRows := active.rows.map (fun r =>
        { r with cells := removeCell r.cells columnId })
      sheets.map (fun s =>
        if s.id = activeSheetId then { s with columns := newColumns, rows := newRows }
        else s)

/-- `deleteRow` (`EditableSpreadsheet` lines 409-416). -/
def deleteRow (sheets : List Sheet) (activeSheetId rowId : String) : List Sheet :=
  sheets.map (fun s =>
    if s.id = activeSheetId then
      { s with rows := s.rows.filter (fun r => ¬ r.id = rowId) }
    else s)

/-- `updateCell` (`EditableSpreadsheet` lines 419-432): writes `value`
under key `columnId` in the cell map of every row with id `rowId` of the
active sheet.  Note that the column id is not checked against the sheet's
column list. -/
def updateCell (sheets : List Sheet) (activeSheetId rowId columnId : String)
    (value : CellValue) : List Sheet :=
  sheets.map (fun s =>
    if s.id = activeSheetId then
      { s with rows := s.rows.map (fun r =>
          if r.id = rowId then { r with cells := setCell r.cells columnId value }
          else r) }
    else s)

/-- The cell-input coercion of the spreadsheet's `onChange` handler
(`EditableSpreadsheet` lines 644-648):
`col.type === 'number' ? Number(e.target.value) || null : e.target.value`.
`Number(v) || null` maps both NaN and 0 (the falsy number) to `null`. -/
def coerceInput (t : ColumnType) (input : String) : CellValue :=
  match t with
  | ColumnType.number =>
    match jsNum input with
    | none => CellValue.null
    | some q => if q = 0 then CellValue.null else CellValue.num q
  | ColumnType.text => CellValue.str input

/-- A user edit of one cell through the spreadsheet UI: the `onChange`
coercion for the column's kind followed by `updateCell`. -/
def writeCell (sheets : List Sheet) (activeSheetId rowId : String) (col : Column)
    (input : String) : List Sheet :=
  updateCell sheets activeSheetId rowId col.id (coerceInput col.type input)

/-- Positional access into a raw imported row, `rawRows[i][colIndex]`:
`none` models both a missing entry (`undefined`) and a null cell. -/
def getRaw (row : List (Option JSVal)) (i : Nat) : Option JSVal :=
  row.getD i none

/-- The emptiness test of the sampling loop in `parseExcelFile`
(`PDFExport.tsx` import section lines 210-219): a sampled value counts
only if `val !== undefined && val !== null && val !== ''`. -/
def cellNonEmpty (v : Option JSVal) : Bool :=
  match v with
  | none => false
  | some (JSVal.str s) => decide (¬ s = "")
  | some (JSVal.num _) => true

/-- `Number(val)` for a raw imported value (`none` = NaN). -/
def jsValNum (v : Option JSVal) : Option ℚ :=
  match v with
  | none => none
  | some (JSVal.num q) => some q
  | some (JSVal.str s) => jsNum s

/-- The sampling loop of `parseExcelFile`'s type inference, carrying
`hasContent` and returning `(isNumber, hasContent)`; a non-numeric
non-empty sample sets `isNumber = false` and breaks. -/
def inferScan (colIndex : Nat) : List (List (Option JSVal)) → Bool → Bool × Bool
  | [], hasContent => (true, hasContent)
  | row :: rest, hasContent =>
    let val := getRaw row colIndex
    if cellNonEmpty val then
      if (jsValNum val).isSome then inferScan colIndex rest true
      else (false, true)
    else inferScan colIndex rest hasContent

/-- Column type inference of `parseExcelFile` (`PDFExport.tsx` import
section lines 205-227): sample up to the first 10 data rows;
`(hasContent && isNumber) ? 'number' : 'text'`. -/
def inferType (rawRows : List (List (Option JSVal))) (colIndex : Nat) : ColumnType :=
  let p := inferScan colIndex (rawRows.take 10) false
  if p.2 && p.1 then ColumnType.number else ColumnType.text

/-- Column construction of `parseExcelFile`: one column per header, name
`header || 'Sin título'`, type inferred from the sample window.  The
`generateId()` fresh ids are abstracted into `idGen`. -/
def importColumns (idGen : Nat → String) (headers : List String)
    (rawRows : List (List (Option JSVal))) : List Column :=
  headers.enum.map (fun p =>
    { id := idGen p.1
      name := if p.2 = "" then "Sin título" else p.2
      type := inferType rawRows p.1 })

/-- Cell conversion in `parseExcelFile`'s row construction (import
section lines 239-249): a present value in a number-typed column is
stored as `Number(value)` (NaN when the conversion fails), a present
value elsewhere is stored as-is, and a missing value becomes `null`. -/
def convertCell (t : ColumnType) (v : Option JSVal) : CellValue :=
  match t, v with
  | ColumnType.number, some val =>
    match jsValNum (some val) with
    | some q => CellValue.num q
    | none => CellValue.nan
  | _, some (JSVal.str s) => CellValue.str s
  | _, some (JSVal.num q) => CellValue.num q
  | _, none => CellValue.null

/-- Row construction of `parseExcelFile`: walk the column list in order
and convert the positionally corresponding raw field. -/
def buildRow (columns : List Column) (rowArray : List (Option JSVal)) :
    List (String × CellValue) :=
  columns.enum.map (fun p => (p.2.id, convertCell p.2.type (getRaw rowArray p.1)))

/-- All imported rows of one source table. -/
def importRows (columns : List Column) (rawRows : List (List (Option JSVal))) :
    List (List (String × CellValue)) :=
  rawRows.map (buildRow columns)

/-- One imported source table (header row already split off): the
inferred columns and the converted data rows. -/
def importTable (idGen : Nat → String) (headers : List String)
    (rawRows : List (List (Option JSVal))) :
    List Column × List (List (String × CellValue)) :=
  let cols := importColumns idGen headers rawRows
  (cols, importRows cols rawRows)

/-- Sample workbook: one sheet, two text columns, one row. -/
def sampleSheet0 : Sheet :=
  { id := "s1"
    name := "Enero"
    columns := [⟨"a", "A", ColumnType.text⟩, ⟨"b", "B", ColumnType.text⟩]
    rows := [⟨"r1", [("a", CellValue.str "x"), ("b", CellValue.str "y")], false⟩] }

/-- Sample workbook as a sheet list. -/
def sampleSheets : List Sheet := [sampleSheet0]

/-- Sample workbook with a single one-column sheet. -/
def oneColSheet0 : Sheet :=
  { id := "s1"
    name := "Enero"
    columns := [⟨"a", "A", ColumnType.text⟩]
    rows := [] }

/-- One-column sample workbook as a sheet list. -/
def oneColSheets : List Sheet := [oneColSheet0]

/-- Sample workbook with one number column and one row holding `5`. -/
def numSheets : List Sheet :=
  [{ id := "s1"
     name := "Enero"
     columns := [⟨"stock_actual", "Stock Actual", ColumnType.number⟩]
     rows := [⟨"r1", [("stock_actual", CellValue.num 5)], false⟩] }]

/-- The source table of the spec's import round-trip scenario, header
row already split off: data rows of `[["Producto","Stock"],["A","50"],["B","abc"]]`. -/
def demoTable : List (List (Option JSVal)) :=
  [[some (JSVal.str "A"), some (JSVal.str "50")],
   [some (JSVal.str "B"), some (JSVal.str "abc")]]

/-- An import source column of 10 numeric samples followed by a
non-numeric value beyond the sampling window. -/
def elevenRows : List (List (Option JSVal)) :=
  [[some (JSVal.str "1")], [some (JSVal.str "2")], [some (JSVal.str "3")],
   [some (JSVal.str "4")], [some (JSVal.str "5")], [some (JSVal.str "6")],
   [some (JSVal.str "7")], [some (JSVal.str "8")], [some (JSVal.str "9")],
   [some (JSVal.str "10")], [some (JSVal.str "abc")]]

/- Helper lemmas. -/

/-- A JS spread update binds the written key. -/
lemma getCell_setCell_same (cells : List (String × CellValue)) (k : String) (v : CellValue) :
    getCell (setCell cells k v) k = some v := by
  simp [getCell, setCell, List.find?]

/-- A JS destructuring removal deletes the key. -/
lemma getCell_removeCell_same (cells : List (String × CellValue)) (k : String) :
    getCell (removeCell cells k) k = none := by
  unfold getCell removeCell
  induction cells with
  | nil => rfl
  | cons a t ih =>
    by_cases h : a.1 = k
    · simp only [List.filter, h]
      simp
    · simp only [List.filter, h]
      simp only [List.find?, h]
      simp

/-- A map whose function fixes every member is the identity. -/
lemma mapIdOfMem {α : Type} {l : List α} {f : α → α} (h : ∀ x ∈ l, f x = x) :
    l.map f = l := by
  induction l with
  | nil => rfl
  | cons a t ih =>
    simp only [List.map_cons]
    rw [h a (List.mem_cons_self a t), ih (fun x hx => h x (List.mem_cons_of_mem a hx))]

/-- `findIndex` over a list with no match is `-1`. -/
lemma jsFindIndex_eq_neg_one {α : Type} {p : α → Bool} {l : List α}
    (h : ∀ x ∈ l, p x = false) : jsFindIndex p l = -1 := by
  induction l with
  | nil => rfl
  | cons a t ih =>
    simp only [jsFindIndex, h a (List.mem_cons_self a t)]
    rw [ih (fun x hx => h x (List.mem_cons_of_mem a hx))]
    simp

/-- An empty active sheet lookup means the workbook is empty. -/
lemma findActiveSheet_eq_none {sheets : List Sheet} {aid : String}
    (h : findActiveSheet sheets aid = none) : sheets = [] := by
  unfold findActiveSheet at h
  cases hf : sheets.find? (fun s => s.id = aid) with
  | some s => rw [hf] at h; exact absurd h (by simp)
  | none =>
    rw [hf] at h
    exact List.head?_eq_none_iff.mp h

/-- A successful active sheet lookup by a matching id returns a sheet
with that id, and `find?` failure means no sheet has the id. -/
lemma find?_id_of_mem {sheets : List Sheet} {aid : String}
    (h : sheets.find? (fun s => s.id = aid) = none) :
    ∀ s ∈ sheets, ¬ s.id = aid := by
  intro s hs
  have := List.find?_eq_none.mp h s hs
  simpa using this

/-- After `updateCell`, every row with the written row id in the sheet
with the written sheet id holds the written value under the written
column id (even a column id absent from the sheet's column list). -/
lemma updateCell_written (sheets : List Sheet) (aid rid cid : String) (v : CellValue) :
    ∀ s2 ∈ updateCell sheets aid rid cid v, s2.id = aid →
      ∀ r2 ∈ s2.rows, r2.id = rid → getCell r2.cells cid = some v := by
  intro s2 hs2 hid r2 hr2 hrid
  unfold updateCell at hs2
  rw [List.mem_map] at hs2
  obtain ⟨s, hs, hseq⟩ := hs2
  by_cases hsid : s.id = aid
  · rw [if_pos hsid] at hseq
    subst hseq
    simp only at hr2
    rw [List.mem_map] at hr2
    obtain ⟨r, hr, hreq⟩ := hr2
    by_cases hrid2 : r.id = rid
    · rw [if_pos hrid2] at hreq
      subst hreq
      exact getCell_setCell_same r.cells cid v
    · rw [if_neg hrid2] at hreq
      subst hreq
      exact absurd hrid hrid2
  · rw [if_neg hsid] at hseq
    subst hseq
    exact absurd hid hsid

/-- The Low branch of `getStockStatus` is taken exactly on
stock < minimum (checked first, so it wins over the High test). -/
lemma getStockStatus_bajo_iff (s mn mx : ℚ) :
    getStockStatus s mn mx = StockStatus.bajo ↔ s < mn := by
  unfold getStockStatus
  split_ifs with h1 h2
  · simp [h1]
  · simp [h1]
  · simp [h1]

/-- With ordered thresholds, the High branch of `getStockStatus` is
taken exactly on stock >= maximum. -/
lemma getStockStatus_alto_iff (s mn mx : ℚ) (h : mn ≤ mx) :
    getStockStatus s mn mx = StockStatus.alto ↔ mx ≤ s := by
  unfold getStockStatus
  split_ifs with h1 h2
  · exact iff_of_false (by simp) (by intro hc; linarith)
  · exact iff_of_true rfl h2
  · exact iff_of_false (by simp) (fun hc => h2 hc)

/-- With ordered thresholds, the Correct branch of `getStockStatus` is
taken exactly on minimum <= stock < maximum. -/
lemma getStockStatus_correcto_iff (s mn mx : ℚ) :
    getStockStatus s mn mx = StockStatus.correcto ↔ mn ≤ s ∧ s < mx := by
  unfold getStockStatus
  split_ifs with h1 h2
  · exact iff_of_false (by simp) (fun hc => absurd h1 (not_lt.mpr hc.1))
  · exact iff_of_false (by simp) (fun hc => absurd hc.2 (not_lt.mpr h2))
  · exact iff_of_true rfl ⟨not_lt.mp h1, not_le.mp h2⟩

/-- Away from the maximum boundary the KPI classification and
`getStockStatus` take the same branch. -/
lemma kpiClassify_eq_getStockStatus (s mn mx : ℚ) (hne : ¬ s = mx) :
    kpiClassify s mn mx = getStockStatus s mn mx := by
  unfold kpiClassify getStockStatus
  split_ifs with h1 h2 h3 h4 <;> try rfl
  · exact absurd (le_of_lt h2) h3
  · exact absurd (le_antisymm (not_lt.mp h2) h4) hne

/-- C3 (counterexample): with stock=5, minimum=10, maximum=3 the
classification returns Low even though stock >= maximum, refuting "High
exactly when stock >= maximum" for arbitrary thresholds. -/
theorem getStockStatus_high_iff_counterexample :
    (3 : ℚ) ≤ 5 ∧ ¬ getStockStatus 5 10 3 = StockStatus.alto := by
  constructor
  · norm_num
  · decide

/-- C3 (amended): the classification returns Low exactly when
stock < minimum; and, provided minimum <= maximum, it returns High
exactly when stock >= maximum and Correct exactly when
minimum <= stock < maximum; the concrete boundary examples with
minimum=10, maximum=100 hold as stated. -/
theorem getStockStatus_boundaries :
    ∀ stock minS maxS : ℚ,
      (getStockStatus stock minS maxS = StockStatus.bajo ↔ stock < minS) ∧
      (minS ≤ maxS →
        ((getStockStatus stock minS maxS = StockStatus.alto ↔ maxS ≤ stock) ∧
         (getStockStatus stock minS maxS = StockStatus.correcto ↔
           minS ≤ stock ∧ stock < maxS))) ∧
      (getStockStatus 10 10 100 = StockStatus.correcto ∧
       getStockStatus 9 10 100 = StockStatus.bajo ∧
       getStockStatus 100 10 100 = StockStatus.alto ∧
       getStockStatus 99 10 100 = StockStatus.correcto) := by
  intro stock minS maxS
  refine ⟨getStockStatus_bajo_iff stock minS maxS, ?_, by decide, by decide, by decide,
    by decide⟩
  intro hle
  exact ⟨getStockStatus_alto_iff stock minS maxS hle,
    getStockStatus_correcto_iff stock minS maxS⟩

/-- C3 (witness): the amended theorem applied at stock=123,
minimum=10, maximum=100. -/
theorem getStockStatus_boundaries_witness :
    getStockStatus 123 10 100 = StockStatus.alto :=
  (((getStockStatus_boundaries 123 10 100).2.1 (by norm_num)).1).mpr (by norm_num)

/-- C2 (counterexample): a record with stock equal to the maximum
(stock=100, minimum=10, maximum=100) is classified High by
`getStockStatus`, but counted Correct (not High) by `handleCalculate`'s
bucket counts and classified healthy (Correct) by the KPI counters. -/
theorem aggregate_boundary_counterexample :
    getStockStatus 100 10 100 = StockStatus.alto ∧
    productosStockCorrecto [100] 10 100 = 1 ∧
    productosAltoStock [100] 100 = 0 ∧
    kpiClassify 100 10 100 = StockStatus.correcto := by decide

/-- C2 (amended): for minimum <= maximum, the Low bucket of every
aggregate path agrees with the classification function; the aggregate
paths use an inclusive maximum for Correct, so on records whose stock
differs from the maximum the Correct and High buckets and the KPI
classification all agree with `getStockStatus`, while a record whose
stock equals the maximum is counted Correct (healthy) by the aggregate
paths but classified High by `getStockStatus`. -/
theorem aggregate_counts_match_classification :
    ∀ stock minS maxS : ℚ, minS ≤ maxS →
      (bajoFilter minS stock = true ↔
        getStockStatus stock minS maxS = StockStatus.bajo) ∧
      (¬ stock = maxS →
        ((correctoFilter minS maxS stock = true ↔
           getStockStatus stock minS maxS = StockStatus.correcto) ∧
         (altoFilter maxS stock = true ↔
           getStockStatus stock minS maxS = StockStatus.alto) ∧
         kpiClassify stock minS maxS = getStockStatus stock minS maxS)) ∧
      (stock = maxS →
        (correctoFilter minS maxS stock = true ∧
         altoFilter maxS stock = false ∧
         kpiClassify stock minS maxS = StockStatus.correcto ∧
         getStockStatus stock minS maxS = StockStatus.alto)) := by
  intro stock minS maxS hle
  refine ⟨?_, ?_, ?_⟩
  · rw [getStockStatus_bajo_iff]
    unfold bajoFilter
    simp
  · intro hne
    refine ⟨?_, ?_, kpiClassify_eq_getStockStatus stock minS maxS hne⟩
    · rw [getStockStatus_correcto_iff stock minS maxS]
      unfold correctoFilter
      simp only [Bool.and_eq_true, decide_eq_true_eq]
      constructor
      · rintro ⟨ha, hb⟩
        exact ⟨ha, lt_of_le_of_ne hb hne⟩
      · rintro ⟨ha, hb⟩
        exact ⟨ha, le_of_lt hb⟩
    · rw [getStockStatus_alto_iff stock minS maxS hle]
      unfold altoFilter
      simp only [decide_eq_true_eq]
      constructor
      · exact le_of_lt
      · intro hc
        exact lt_of_le_of_ne hc (fun he => hne he.symm)
  · intro heq
    subst heq
    refine ⟨?_, ?_, ?_, ?_⟩
    · unfold correctoFilter
      simp only [Bool.and_eq_true, decide_eq_true_eq]
      exact ⟨hle, le_rfl⟩
    · unfold altoFilter
      simp
    · unfold kpiClassify
      rw [if_neg (by linarith), if_neg (by simp)]
    · unfold getStockStatus
      rw [if_neg (by linarith), if_pos le_rfl]

/-- C2 (witness): the amended theorem applied at stock=5, minimum=10,
maximum=100 (the aggregate paths and the classification agree away from
the maximum boundary). -/
theorem aggregate_counts_match_classification_witness :
    kpiClassify 5 10 100 = getStockStatus 5 10 100 :=
  (((aggregate_counts_match_classification 5 10 100 (by norm_num)).2.1) (by norm_num)).2.2

/-- C1: column insertion and deletion keep every row's cell map in step
with the column list in the same update: after `addColumn` every row of
the target sheet holds the new column id with the absent (`null`) value,
and after a `deleteColumn` that actually removes a column (more than one
column present) no row of the target sheet holds the deleted column
id. -/
theorem column_cell_map_sync :
    ∀ (sheets : List Sheet) (aid newId colId : String) (after : Option String)
      (active : Sheet),
      (∀ s2 ∈ addColumn sheets aid newId after, s2.id = aid →
        ∀ r ∈ s2.rows, getCell r.cells newId = some CellValue.null) ∧
      (findActiveSheet sheets aid = some active → 1 < active.columns.length →
        ∀ s2 ∈ deleteColumn sheets aid colId, s2.id = aid →
          ∀ r ∈ s2.rows, getCell r.cells colId = none) := by
  intro sheets aid newId colId after active
  constructor
  · intro s2 hs2 hid r hr
    unfold addColumn at hs2
    cases hfind : findActiveSheet sheets aid with
    | none =>
      rw [hfind] at hs2
      simp only [findActiveSheet_eq_none hfind] at hs2
      exact absurd hs2 (List.not_mem_nil s2)
    | some act =>
      rw [hfind] at hs2
      simp only [List.mem_map] at hs2
      obtain ⟨s, hs, hseq⟩ := hs2
      by_cases hsid : s.id = aid
      · rw [if_pos hsid] at hseq
        subst hseq
        simp only [List.mem_map] at hr
        obtain ⟨r0, hr0, hreq⟩ := hr
        subst hreq
        exact getCell_setCell_same r0.cells newId CellValue.null
      · rw [if_neg hsid] at hseq
        subst hseq
        exact absurd hid hsid
  · intro hfind hlen s2 hs2 hid r hr
    unfold deleteColumn at hs2
    rw [hfind] at hs2
    simp only at hs2
    rw [if_neg (by omega)] at hs2
    simp only [List.mem_map] at hs2
    obtain ⟨s, hs, hseq⟩ := hs2
    by_cases hsid : s.id = aid
    · rw [if_pos hsid] at hseq
      subst hseq
      simp only [List.mem_map] at hr
      obtain ⟨r0, hr0, hreq⟩ := hr
      subst hreq
      exact getCell_removeCell_same r0.cells colId
    · rw [if_neg hsid] at hseq
      subst hseq
      exact absurd hid hsid

/-- C1 (witness): the theorem applied to the sample workbook; after
deleting column "b" of its two-column sheet, the surviving row's cell
map no longer holds key "b". -/
theorem column_cell_map_sync_witness :
    getCell ((Row.mk "r1" [("a", CellValue.str "x")] false).cells) "b" = none :=
  (column_cell_map_sync sampleSheets "s1" "n" "b" none sampleSheet0).2
    (by decide) (by decide)
    { sampleSheet0 with
      columns := [⟨"a", "A", ColumnType.text⟩]
      rows := [⟨"r1", [("a", CellValue.str "x")], false⟩] }
    (by decide) (by decide)
    (Row.mk "r1" [("a", CellValue.str "x")] false) (by decide)

/-- C5: `deleteSheet` on a single-sheet workbook returns the workbook
unchanged, and `deleteColumn` on a sheet with a single column returns the
workbook unchanged (both are total functions, so neither throws). -/
theorem last_sheet_last_column_protection :
    ∀ (sheets : List Sheet) (sid aid colId : String) (active : Sheet),
      (sheets.length = 1 → deleteSheet sheets sid = sheets) ∧
      (findActiveSheet sheets aid = some active → active.columns.length = 1 →
        deleteColumn sheets aid colId = sheets) := by
  intro sheets sid aid colId active
  constructor
  · intro h
    unfold deleteSheet
    rw [if_pos (by omega)]
  · intro hfind hlen
    unfold deleteColumn
    rw [hfind]
    simp only
    rw [if_pos (by omega)]

/-- C5 (witness): the theorem applied to the one-sheet, one-column
sample workbook. -/
theorem last_sheet_last_column_protection_witness :
    deleteSheet oneColSheets "s1" = oneColSheets ∧
    deleteColumn oneColSheets "s1" "a" = oneColSheets :=
  ⟨(last_sheet_last_column_protection oneColSheets "s1" "s1" "a" oneColSheet0).1
      (by decide),
   (last_sheet_last_column_protection oneColSheets "s1" "s1" "a" oneColSheet0).2
      (by decide) (by decide)⟩

/-- C8 (counterexample): a cell write addressed to an existing sheet and
row but a column id ("ghost") that exists nowhere in the sheet's column
list changes the workbook: the stray key is inserted into the row's cell
map, so the operation is not a no-op as claimed. -/
theorem unknown_id_mutation_counterexample :
    ¬ updateCell sampleSheets "s1" "r1" "ghost" (CellValue.str "z") = sampleSheets := by
  decide

/-- C8 (amended): mutations addressed to an unknown sheet id or an
unknown row id return the workbook unchanged (`deleteSheet`, `deleteRow`
and `updateCell`), but `updateCell` does not check the column id: a
write with an existing sheet and row id stores the value under the given
column id even when no such column exists, changing the workbook. -/
theorem unknown_id_mutations :
    ∀ (sheets : List Sheet) (sid aid rid cid : String) (v : CellValue),
      ((∀ s ∈ sheets, ¬ s.id = sid) → deleteSheet sheets sid = sheets) ∧
      ((∀ s ∈ sheets, ¬ s.id = aid) → deleteRow sheets aid rid = sheets) ∧
      ((∀ s ∈ sheets, ¬ s.id = aid) → updateCell sheets aid rid cid v = sheets) ∧
      ((∀ s ∈ sheets, ∀ r ∈ s.rows, ¬ r.id = rid) → deleteRow sheets aid rid = sheets) ∧
      ((∀ s ∈ sheets, ∀ r ∈ s.rows, ¬ r.id = rid) →
        updateCell sheets aid rid cid v = sheets) ∧
      (∀ s2 ∈ updateCell sheets aid rid cid v, s2.id = aid →
        ∀ r2 ∈ s2.rows, r2.id = rid → getCell r2.cells cid = some v) := by
  intro sheets sid aid rid cid v
  refine ⟨?_, ?_, ?_, ?_, ?_, updateCell_written sheets aid rid cid v⟩
  · intro h
    unfold deleteSheet
    split_ifs with hlen
    · rfl
    · exact List.filter_eq_self.mpr (fun s hs => by simpa using h s hs)
  · intro h
    unfold deleteRow
    exact mapIdOfMem (fun s hs => by rw [if_neg (h s hs)])
  · intro h
    unfold updateCell
    exact mapIdOfMem (fun s hs => by rw [if_neg (h s hs)])
  · intro h
    unfold deleteRow
    refine mapIdOfMem (fun s hs => ?_)
    split_ifs with hsid
    · rw [List.filter_eq_self.mpr (fun r hr => by simpa using h s hs r hr)]
    · rfl
  · intro h
    unfold updateCell
    refine mapIdOfMem (fun s hs => ?_)
    split_ifs with hsid
    · rw [mapIdOfMem (fun r hr => by rw [if_neg (h s hs r hr)])]
    · rfl

/-- C8 (witness): the amended theorem applied to the sample workbook
with a row id that matches no row. -/
theorem unknown_id_mutations_witness :
    deleteRow sampleSheets "s1" "nope" = sampleSheets :=
  (unknown_id_mutations sampleSheets "x" "s1" "nope" "c" CellValue.null).2.2.2.1
    (by decide)

/-- C7 (counterexample): adding a column after the unknown column id
"zzz" on a one-column sheet puts the new column first, not last:
`findIndex` returns -1 and `splice(-1 + 1, 0, c)` inserts at index 0. -/
theorem addColumn_unknown_after_counterexample :
    (addColumn oneColSheets "s1" "new" (some "zzz")).map
        (fun s => s.columns.map (fun c => c.id)) = [["new", "a"]] ∧
    ¬ ([["new", "a"]] = [["a", "new"]]) := by
  decide

/-- C7 (amended): for a non-empty `after_column_id` that matches no
column of the active sheet, `addColumn` inserts the new column at the
front of the column list (index 0); only an omitted — or empty, hence
JS-falsy — `after_column_id` appends at the end. -/
theorem addColumn_unknown_after_amended :
    ∀ (sheets : List Sheet) (aid newId a : String) (active : Sheet),
      findActiveSheet sheets aid = some active →
      ¬ a = "" →
      (∀ c ∈ active.columns, ¬ c.id = a) →
      ∀ s2 ∈ addColumn sheets aid newId (some a), s2.id = aid →
        s2.columns = newColumnFor active newId :: active.columns := by
  intro sheets aid newId a active hfind hne hnone s2 hs2 hid
  unfold addColumn at hs2
  rw [hfind] at hs2
  simp only [if_neg hne] at hs2
  rw [jsFindIndex_eq_neg_one (fun c hc => by simpa using hnone c hc)] at hs2
  simp only [List.mem_map] at hs2
  obtain ⟨s, hs, hseq⟩ := hs2
  by_cases hsid : s.id = aid
  · rw [if_pos hsid] at hseq
    subst hseq
    simp [spliceInsert]
  · rw [if_neg hsid] at hseq
    subst hseq
    exact absurd hid hsid

/-- C7 (witness): the amended theorem applied to the one-column sample
workbook with the unknown id "zzz". -/
theorem addColumn_unknown_after_amended_witness :
    (Sheet.mk "s1" "Enero" (newColumnFor oneColSheet0 "new" :: oneColSheet0.columns)
        []).columns = newColumnFor oneColSheet0 "new" :: oneColSheet0.columns :=
  addColumn_unknown_after_amended oneColSheets "s1" "new" "zzz" oneColSheet0
    (by decide) (by decide) (by decide)
    (Sheet.mk "s1" "Enero" (newColumnFor oneColSheet0 "new" :: oneColSheet0.columns) [])
    (by decide) (by decide)

/-- `Number("0") = 0`. -/
lemma jsNum_zero : jsNum "0" = some 0 := by
  have h : jsNum "0" = some ((1 : ℚ) *
      ((digitsVal ['0'] : ℚ) +
        (digitsVal [] : ℚ) / (10 : ℚ) ^ (List.length ([] : List Char)))) := rfl
  rw [h]
  norm_num [digitsVal, show '0'.toNat = 48 from by decide]

/-- `Number("0.0") = 0`. -/
lemma jsNum_zero_dot_zero : jsNum "0.0" = some 0 := by
  have h : jsNum "0.0" = some ((1 : ℚ) *
      ((digitsVal ['0'] : ℚ) +
        (digitsVal ['0'] : ℚ) / (10 : ℚ) ^ (List.length ['0']))) := rfl
  rw [h]
  norm_num [digitsVal, show '0'.toNat = 48 from by decide]

/-- `Number("") = 0`. -/
lemma jsNum_empty : jsNum "" = some 0 := by decide

/-- C4: a string that does not convert to a number (`Number(s)` is NaN),
written into a cell of a number-kind column, stores the absent marker:
the coerced value is `null` (so neither the raw string nor a NaN is
stored), and after the write the addressed cell holds `null`.  All
functions involved are total, so the write cannot throw. -/
theorem write_cell_numeric_coercion_safety :
    ∀ (sheets : List Sheet) (aid rid : String) (c : Column) (input : String),
      c.type = ColumnType.number →
      jsNum input = none →
      coerceInput c.type input = CellValue.null ∧
      ∀ s2 ∈ writeCell sheets aid rid c input, s2.id = aid →
        ∀ r2 ∈ s2.rows, r2.id = rid → getCell r2.cells c.id = some CellValue.null := by
  intro sheets aid rid c input ht hnum
  have hco : coerceInput c.type input = CellValue.null := by
    rw [ht]
    unfold coerceInput
    rw [hnum]
  refine ⟨hco, ?_⟩
  intro s2 hs2 hid r2 hr2 hrid
  unfold writeCell at hs2
  rw [hco] at hs2
  exact updateCell_written sheets aid rid c.id CellValue.null s2 hs2 hid r2 hr2 hrid

/-- C4 (witness): writing "abc" into the number column of the sample
numeric workbook stores `null` in the addressed cell. -/
theorem write_cell_numeric_coercion_safety_witness :
    getCell [("stock_actual", CellValue.null)] "stock_actual" = some CellValue.null :=
  (write_cell_numeric_coercion_safety numSheets "s1" "r1"
      ⟨"stock_actual", "Stock Actual", ColumnType.number⟩ "abc" (by decide) (by decide)).2
    { id := "s1"
      name := "Enero"
      columns := [⟨"stock_actual", "Stock Actual", ColumnType.number⟩]
      rows := [⟨"r1", [("stock_actual", CellValue.null)], false⟩] }
    (by decide) (by decide)
    (Row.mk "r1" [("stock_actual", CellValue.null)] false) (by decide) (by decide)

/-- C10: on a number-kind column the input coercion
`Number(v) || null` maps every input whose numeric conversion is 0
(e.g. "0", "0.0", "") to the absent marker, and consequently no stored
value of a number-kind cell written through the cell-edit path can be
the number 0. -/
theorem number_input_zero_stores_absent :
    ∀ (input : String),
      (jsNum input = some 0 → coerceInput ColumnType.number input = CellValue.null) ∧
      ∀ q : ℚ, coerceInput ColumnType.number input = CellValue.num q → ¬ q = 0 := by
  intro input
  constructor
  · intro h
    unfold coerceInput
    rw [h]
    simp
  · intro q h
    cases hj : jsNum input with
    | none =>
      have hred : coerceInput ColumnType.number input = CellValue.null := by
        unfold coerceInput
        rw [hj]
      rw [hred] at h
      exact absurd h (by simp)
    | some q2 =>
      have hred : coerceInput ColumnType.number input =
          (if q2 = 0 then CellValue.null else CellValue.num q2) := by
        unfold coerceInput
        rw [hj]
      rw [hred] at h
      by_cases hz : q2 = 0
      · rw [if_pos hz] at h
        exact absurd h (by simp)
      · rw [if_neg hz] at h
        simp only [CellValue.num.injEq] at h
        rw [← h]
        exact hz

/-- C10 (witness): the theorem applied to the inputs "0", "0.0" and "",
each of which converts to 0 and is stored as the absent marker. -/
theorem number_input_zero_stores_absent_witness :
    coerceInput ColumnType.number "0" = CellValue.null ∧
    coerceInput ColumnType.number "0.0" = CellValue.null ∧
    coerceInput ColumnType.number "" = CellValue.null :=
  ⟨(number_input_zero_stores_absent "0").1 jsNum_zero,
   (number_input_zero_stores_absent "0.0").1 jsNum_zero_dot_zero,
   (number_input_zero_stores_absent "").1 jsNum_empty⟩

/-- Characterization of the sampling loop: it reports a number column
exactly when some sampled cell is non-empty (or content was already
seen) and every sampled non-empty cell converts cleanly. -/
lemma inferScan_number_iff (ci : Nat) :
    ∀ (l : List (List (Option JSVal))) (hc : Bool),
      ((inferScan ci l hc).2 && (inferScan ci l hc).1) = true ↔
        ((hc = true ∨ l.any (fun row => cellNonEmpty (getRaw row ci)) = true) ∧
         l.all (fun row =>
           !(cellNonEmpty (getRaw row ci)) || (jsValNum (getRaw row ci)).isSome) = true) := by
  intro l
  induction l with
  | nil =>
    intro hc
    simp [inferScan]
  | cons row rest ih =>
    intro hc
    by_cases h1 : cellNonEmpty (getRaw row ci) = true
    · by_cases h2 : (jsValNum (getRaw row ci)).isSome = true
      · simp [inferScan, h1, h2, ih true]
      · have h2b : (jsValNum (getRaw row ci)).isSome = false := by simpa using h2
        simp [inferScan, h1, h2b]
    · have h1b : cellNonEmpty (getRaw row ci) = false := by simpa using h1
      simp [inferScan, h1b, ih hc]

/-- The inferred type is number exactly when the sampling loop (over the
10-row window) ends with content seen and all-numeric. -/
lemma inferType_number_iff (rawRows : List (List (Option JSVal))) (ci : Nat) :
    inferType rawRows ci = ColumnType.number ↔
      ((inferScan ci (rawRows.take 10) false).2 &&
        (inferScan ci (rawRows.take 10) false).1) = true := by
  simp only [inferType]
  by_cases hb : ((inferScan ci (rawRows.take 10) false).2 &&
      (inferScan ci (rawRows.take 10) false).1) = true
  · simp [hb]
  · simp [hb]

/-- C6: type inference samples only the first 10 data rows of a column
and infers number exactly when at least one sampled cell is non-empty
and every sampled non-empty cell converts cleanly to a number; the
concrete two-row table [["Producto","Stock"],["A","50"],["B","abc"]]
imports with both columns inferred text (the "abc" sample defeats the
all-numeric requirement for the Stock column). -/
theorem import_type_inference :
    (∀ (rawRows : List (List (Option JSVal))) (colIndex : Nat),
      inferType rawRows colIndex = ColumnType.number ↔
        ((rawRows.take 10).any (fun row => cellNonEmpty (getRaw row colIndex)) = true ∧
         (rawRows.take 10).all (fun row =>
           !(cellNonEmpty (getRaw row colIndex)) ||
             (jsValNum (getRaw row colIndex)).isSome) = true)) ∧
    (∀ idGen : Nat → String,
      (importColumns idGen ["Producto", "Stock"] demoTable).map
          (fun c => (c.name, c.type)) =
        [("Producto", ColumnType.text), ("Stock", ColumnType.text)]) := by
  constructor
  · intro rawRows ci
    rw [inferType_number_iff]
    rw [inferScan_number_iff ci (rawRows.take 10) false]
    simp
  · intro idGen
    rfl

/-- C6 (witness): the characterization applied to a one-column table
whose single sampled cell is the numeric string "50". -/
theorem import_type_inference_witness :
    inferType [[some (JSVal.str "50")]] 0 = ColumnType.number :=
  (import_type_inference.1 [[some (JSVal.str "50")]] 0).mpr (by decide)

/-- C9 (counterexample): in a column sampled as number from ten numeric
rows, the out-of-window value "abc" (row 11) is stored as the NaN result
of `Number("abc")`, not as the literal string "abc". -/
theorem import_beyond_window_counterexample :
    ((importColumns (fun i => toString i) ["Stock"] elevenRows).map
        (fun c => c.type) = [ColumnType.number]) ∧
    (((importRows (importColumns (fun i => toString i) ["Stock"] elevenRows)
          elevenRows).getD 10 []).map (fun p => p.2) = [CellValue.nan]) ∧
    ¬ (CellValue.nan = CellValue.str "abc") := by
  refine ⟨by decide, by decide, by decide⟩

/-- C9 (amended): an imported value in a number-inferred column that
does not convert to a number is stored as the NaN numeric-conversion
result (`Number(value)`), not as its literal stringified value; the
conversion is a total function, so it never throws. -/
theorem import_beyond_window_amended :
    ∀ (val : JSVal), jsValNum (some val) = none →
      convertCell ColumnType.number (some val) = CellValue.nan := by
  intro val h
  cases val with
  | str s => simp [convertCell, h]
  | num q => simp [convertCell, h]

/-- C9 (witness): the amended theorem applied to the raw value "abc". -/
theorem import_beyond_window_amended_witness :
    convertCell ColumnType.number (some (JSVal.str "abc")) = CellValue.nan :=
  import_beyond_window_amended (JSVal.str "abc") (by decide)

end GestorStock
